import Mathlib

/-!
Shallow embedding of the QuickDesk help-desk application (`app.py`):
data model (User, Ticket, Comment, Notification rows), the notification
fan-out helpers (`notify_ticket_created`, `notify_status_changed`,
`notify_comment_added`), and the route handlers relevant to the claims
(`update_ticket_status`, `vote_ticket`, `mark_all_notifications_read`,
the `dashboard` listing).  Roles, statuses and priorities are stored as
strings, exactly as in the SQLAlchemy columns.  Timestamps are modelled
as natural numbers.  Flash messages are modelled as `(message, category)`
pairs; `Forbidden` surfaces as a flash with category `"error"`.
-/

namespace QuickDesk

/-- Row of the `User` table: id, username, role ∈ {"user","agent","admin"}.
Fields not consulted by the modelled handlers (email, password hash,
timestamps) are omitted. -/
structure User where
  id : Nat
  username : String
  role : String
  deriving Repr, DecidableEq

/-- Row of the `Ticket` table.  `status` defaults to "open", `priority`
to "medium"; `assigned_to` is a nullable foreign key. -/
structure Ticket where
  id : Nat
  subject : String
  description : String
  status : String
  priority : String
  updated_at : Nat
  user_id : Nat
  category_id : Nat
  assigned_to : Option Nat
  upvotes : Nat
  downvotes : Nat
  deriving Repr, DecidableEq

/-- Row of the `Comment` table. -/
structure Comment where
  id : Nat
  content : String
  user_id : Nat
  ticket_id : Nat
  deriving Repr, DecidableEq

/-- Row of the `Notification` table; `is_read` defaults to `false`. -/
structure Notification where
  user_id : Nat
  ticket_id : Nat
  comment_id : Option Nat
  type : String
  message : String
  is_read : Bool
  deriving Repr, DecidableEq

/-- Lookup of `ticket.author.username` / `comment.author.username`:
the username of the user row whose id matches. -/
def usernameOf (users : List User) (uid : Nat) : String :=
  match users.find? (fun u => u.id == uid) with
  | some u => u.username
  | none => ""

/-- `create_notification`: builds the row that the helper adds and
commits; `is_read` takes its column default `false`. -/
def create_notification (user_id ticket_id : Nat) (notification_type message : String)
    (comment_id : Option Nat) : Notification :=
  { user_id := user_id, ticket_id := ticket_id, type := notification_type,
    message := message, comment_id := comment_id, is_read := false }

/-- Python `str.title()` on one word: first character upper-cased, the
rest lower-cased. -/
def pyTitleWord (w : String) : String :=
  match w.data with
  | [] => ""
  | ch :: rest => String.mk (ch.toUpper :: rest.map Char.toLower)

/-- `s.replace("_", " ").title()` as used in the status-change message. -/
def pyTitle (s : String) : String :=
  String.intercalate " " (((s.replace "_" " ").splitOn " ").map pyTitleWord)

/-- `notify_ticket_created`: one notification per user with role
"admin", then one per user with role "agent", all of type
"ticket_created".  There is no exclusion of the ticket's creator. -/
def notify_ticket_created (users : List User) (t : Ticket) : List Notification :=
  let message := "New ticket \"" ++ t.subject ++ "\" created by " ++ usernameOf users t.user_id
  let admins := users.filter (fun u => u.role == "admin")
  let agents := users.filter (fun u => u.role == "agent")
  admins.map (fun u => create_notification u.id t.id "ticket_created" message none)
    ++ agents.map (fun u => create_notification u.id t.id "ticket_created" message none)

/-- `notify_status_changed`: a single notification to the ticket's
creator describing the old and new status in title case. -/
def notify_status_changed (t : Ticket) (old_status new_status : String) : Notification :=
  create_notification t.user_id t.id "status_changed"
    ("Your ticket \"" ++ t.subject ++ "\" status changed from "
      ++ pyTitle old_status ++ " to " ++ pyTitle new_status) none

/-- `notify_comment_added`: creator branch (skipped when the commenter
is the creator), assigned-agent branch (skipped when unassigned, or the
assignee is the commenter or the creator), and, on "high"/"urgent"
priority, one notification per admin other than the commenter. -/
def notify_comment_added (users : List User) (t : Ticket) (c : Comment) : List Notification :=
  let author_name := usernameOf users c.user_id
  let creator_notifs :=
    if c.user_id ≠ t.user_id then
      [create_notification t.user_id t.id "comment_added"
        ("New comment on your ticket \"" ++ t.subject ++ "\" by " ++ author_name) (some c.id)]
    else []
  let agent_notifs :=
    match t.assigned_to with
    | some a =>
      if a ≠ c.user_id ∧ a ≠ t.user_id then
        [create_notification a t.id "comment_added"
          ("New comment on assigned ticket \"" ++ t.subject ++ "\" by " ++ author_name)
          (some c.id)]
      else []
    | none => []
  let admin_notifs :=
    if t.priority = "high" ∨ t.priority = "urgent" then
      ((users.filter (fun u => u.role == "admin")).filter (fun u => u.id != c.user_id)).map
        (fun u => create_notification u.id t.id "comment_added"
          ("New comment on " ++ t.priority ++ " priority ticket \"" ++ t.subject ++ "\" by "
            ++ author_name) (some c.id))
    else []
  creator_notifs ++ agent_notifs ++ admin_notifs

/-- Outcome of the `update_ticket_status` route handler: the (possibly
updated) ticket row, the notifications created during the request, and
the flash messages issued (message, category). -/
structure UpdateStatusResult where
  ticket : Ticket
  new_notifications : List Notification
  flashes : List (String × String)
  deriving Repr, DecidableEq

/-- Route `POST /ticket/<id>/update_status`.  Non-agent/admin actors are
rejected with an "error" flash and nothing changes.  Otherwise, when the
form's `status` is one of the four valid values the handler always sets
`ticket.status` and refreshes `ticket.updated_at`, and notifies the
creator only when the status actually changed; when `status` is missing
or invalid the handler falls through silently (no flash, no change). -/
def update_ticket_status (actor : User) (t : Ticket) (status : Option String) (now : Nat) :
    UpdateStatusResult :=
  if actor.role ≠ "agent" ∧ actor.role ≠ "admin" then
    { ticket := t, new_notifications := [],
      flashes := [("You do not have permission to update ticket status", "error")] }
  else
    match status with
    | some s =>
      if s = "open" ∨ s = "in_progress" ∨ s = "resolved" ∨ s = "closed" then
        let old_status := t.status
        let t2 := { t with status := s, updated_at := now }
        { ticket := t2,
          new_notifications :=
            if old_status ≠ s then [notify_status_changed t2 old_status s] else [],
          flashes := [("Ticket status updated successfully!", "success")] }
      else
        { ticket := t, new_notifications := [], flashes := [] }
    | none => { ticket := t, new_notifications := [], flashes := [] }

/-- Outcome of the `vote_ticket` route handler: the ticket row after the
commit and the JSON response `{'upvotes': ..., 'downvotes': ...}`. -/
structure VoteResult where
  ticket : Ticket
  upvotes : Nat
  downvotes : Nat
  deriving Repr, DecidableEq

/-- Route `POST /ticket/<id>/vote`.  An "upvote"/"downvote" form value
increments the matching counter by one (the `updated_at` column's
`onupdate` default refreshes the timestamp on that row update); any
other value changes nothing.  The response always reports the ticket's
current counters. -/
def vote_ticket (t : Ticket) (vote_type : Option String) (now : Nat) : VoteResult :=
  let t2 :=
    if vote_type = some "upvote" then
      { t with upvotes := t.upvotes + 1, updated_at := now }
    else if vote_type = some "downvote" then
      { t with downvotes := t.downvotes + 1, updated_at := now }
    else t
  { ticket := t2, upvotes := t2.upvotes, downvotes := t2.downvotes }

/-- Sequential composition of `vote_ticket` calls over a list of form
values (the request timestamp is irrelevant to the counters). -/
def applyVotes (t : Ticket) (votes : List (Option String)) (now : Nat) : Ticket :=
  votes.foldl (fun acc v => (vote_ticket acc v now).ticket) t

/-- Per-row effect of the bulk
`Notification.query.filter_by(user_id=..., is_read=False).update(\x7b'is_read': True\x7d)`:
rows of the user that are unread become read, all other rows are
untouched. -/
def mark_read_row (uid : Nat) (n : Notification) : Notification :=
  if n.user_id == uid && n.is_read == false then { n with is_read := true } else n

/-- Route `POST /notifications/mark-all-read`: applies the bulk update
to the notification table and reports the number of rows affected. -/
def mark_all_notifications_read (notifs : List Notification) (uid : Nat) :
    List Notification × Nat :=
  (notifs.map (mark_read_row uid),
    (notifs.filter (fun n => n.user_id == uid && n.is_read == false)).length)

/-- Priority value map used by the dashboard's `priority` sort:
urgent 4, high 3, medium 2, low 1 (an unmatched value gets no rank;
modelled as 0, which sorts last under the descending order). -/
def priorityRank (p : String) : Nat :=
  if p = "urgent" then 4
  else if p = "high" then 3
  else if p = "medium" then 2
  else if p = "low" then 1
  else 0

/-- Comparator of `order_by(Ticket.updated_at.desc())`. -/
def recent_le (a b : Ticket) : Bool :=
  decide (b.updated_at ≤ a.updated_at)

/-- Comparator of `order_by(case(priority_order, value=priority).desc())`:
priority rank descending, with no secondary sort key. -/
def priority_le (a b : Ticket) : Bool :=
  decide (priorityRank b.priority ≤ priorityRank a.priority)

/-- Substring test modelling SQL `contains`. -/
def containsSub (s sub : String) : Bool :=
  decide (2 ≤ (s.splitOn sub).length)

/-- Filter stage of the `dashboard` route: a "user" sees only their own
tickets; then optional status equality, category equality (form value
against the id), and substring search over subject and description. -/
def dashboard_filter (actor : User) (tickets : List Ticket)
    (status_filter category_filter search_query : String) : List Ticket :=
  let q0 := if actor.role = "user" then tickets.filter (fun t => t.user_id == actor.id)
            else tickets
  let q1 := if status_filter ≠ "" then q0.filter (fun t => t.status == status_filter) else q0
  let q2 := if category_filter ≠ "" then
              q1.filter (fun t => toString t.category_id == category_filter)
            else q1
  if search_query ≠ "" then
    q2.filter (fun t => containsSub t.subject search_query
                          || containsSub t.description search_query)
  else q2

/-- Route `GET /dashboard`: filter, then sort (`recent` and the default
both by updated timestamp descending, `priority` by the rank map
descending), then paginate with fixed page size 10.  Ties carry no
secondary sort key; the embedding realizes the query's tie order as the
stable order of the stored list. -/
def dashboard_tickets (actor : User) (tickets : List Ticket)
    (status_filter category_filter search_query sort_by : String) (page : Nat) : List Ticket :=
  let q := dashboard_filter actor tickets status_filter category_filter search_query
  let sorted :=
    if sort_by = "recent" then q.mergeSort recent_le
    else if sort_by = "priority" then q.mergeSort priority_le
    else q.mergeSort recent_le
  (sorted.drop ((page - 1) * 10)).take 10

/-! Concrete rows used by witnesses and counterexamples. -/

/-- Agent actor for the status-update theorems. -/
def agentBob : User := { id := 2, username := "bob", role := "agent" }

/-- Plain-user actor for the Forbidden theorem. -/
def userCarol : User := { id := 5, username := "carol", role := "user" }

/-- Baseline ticket row: creator is user 5, open, medium priority. -/
def baseTicket : Ticket :=
  { id := 1, subject := "s", description := "d", status := "open", priority := "medium",
    updated_at := 0, user_id := 5, category_id := 1, assigned_to := none,
    upvotes := 0, downvotes := 0 }

/-- C6: a setStatus call by an actor whose role is neither "agent" nor
"admin" (in particular the ticket's own creator with role "user") fails
with Forbidden — an "error" flash — and leaves the ticket unchanged,
with no StatusChanged notification produced. -/
theorem update_ticket_status_forbidden (actor : User) (t : Ticket)
    (status : Option String) (now : Nat)
    (h1 : actor.role ≠ "agent") (h2 : actor.role ≠ "admin") :
    update_ticket_status actor t status now
      = { ticket := t, new_notifications := [],
          flashes := [("You do not have permission to update ticket status", "error")] } := by
  unfold update_ticket_status
  rw [if_pos ⟨h1, h2⟩]

/-- C6 witness: the Forbidden theorem applied to a "user"-role actor
attempting setStatus on their own ticket. -/
theorem update_ticket_status_forbidden_witness :
    userCarol.role ≠ "agent" ∧ userCarol.role ≠ "admin"
    ∧ update_ticket_status userCarol baseTicket (some "closed") 7
        = { ticket := baseTicket, new_notifications := [],
            flashes := [("You do not have permission to update ticket status", "error")] } :=
  ⟨by decide, by decide,
    update_ticket_status_forbidden userCarol baseTicket (some "closed") 7
      (by decide) (by decide)⟩

/-- C3 counterexample: an authorized no-op status update (new status
equals the current status "open") creates no notification, but it does
not leave the ticket unchanged — the updated timestamp moves from 0 to
the request time 7, refuting the claim that the ticket including its
updated timestamp is untouched. -/
theorem update_ticket_status_noop_touches_timestamp :
    (update_ticket_status agentBob baseTicket (some "open") 7).new_notifications = []
    ∧ baseTicket.updated_at = 0
    ∧ (update_ticket_status agentBob baseTicket (some "open") 7).ticket.updated_at = 7 := by
  decide

/-- C3 (amended): when an authorized agent/admin sets a ticket's status
to its current (valid) value, no StatusChanged notification is created
and the status is unchanged, but the ticket's updated timestamp is
refreshed to the request time and a success message is flashed. -/
theorem update_ticket_status_noop (actor : User) (t : Ticket) (now : Nat)
    (hrole : actor.role = "agent" ∨ actor.role = "admin")
    (hvalid : t.status = "open" ∨ t.status = "in_progress"
              ∨ t.status = "resolved" ∨ t.status = "closed") :
    update_ticket_status actor t (some t.status) now
      = { ticket := { t with updated_at := now }, new_notifications := [],
          flashes := [("Ticket status updated successfully!", "success")] } := by
  have hna : ¬(actor.role ≠ "agent" ∧ actor.role ≠ "admin") := by
    rcases hrole with h | h
    · exact fun hc => hc.1 h
    · exact fun hc => hc.2 h
  simp only [update_ticket_status, if_neg hna, if_pos hvalid, ne_eq, not_true_eq_false,
    if_false]

/-- C3 witness: the amended no-op theorem applied to an agent setting
status "open" on an open ticket. -/
theorem update_ticket_status_noop_witness :
    (agentBob.role = "agent" ∨ agentBob.role = "admin")
    ∧ (baseTicket.status = "open" ∨ baseTicket.status = "in_progress"
        ∨ baseTicket.status = "resolved" ∨ baseTicket.status = "closed")
    ∧ update_ticket_status agentBob baseTicket (some baseTicket.status) 7
        = { ticket := { baseTicket with updated_at := 7 }, new_notifications := [],
            flashes := [("Ticket status updated successfully!", "success")] } :=
  ⟨by decide, by decide,
    update_ticket_status_noop agentBob baseTicket 7 (by decide) (by decide)⟩

/-- C4 counterexample: an authorized agent submitting the invalid
status "banana" is not shown any ValidationError — the handler falls
through silently, with an empty flash list — though the state is indeed
unchanged. -/
theorem update_ticket_status_invalid_silent :
    (update_ticket_status agentBob baseTicket (some "banana") 7).flashes = []
    ∧ (update_ticket_status agentBob baseTicket (some "banana") 7).ticket = baseTicket
    ∧ (update_ticket_status agentBob baseTicket (some "banana") 7).new_notifications = [] := by
  decide

/-- C4 (amended): for an authorized agent/admin and a status value not
among the four valid ones, the operation aborts with no state change —
ticket status and updated timestamp untouched, no notification — but
silently: no error message is surfaced to the caller. -/
theorem update_ticket_status_invalid (actor : User) (t : Ticket) (s : String) (now : Nat)
    (hrole : actor.role = "agent" ∨ actor.role = "admin")
    (hs : s ≠ "open" ∧ s ≠ "in_progress" ∧ s ≠ "resolved" ∧ s ≠ "closed") :
    update_ticket_status actor t (some s) now
      = { ticket := t, new_notifications := [], flashes := [] } := by
  have hna : ¬(actor.role ≠ "agent" ∧ actor.role ≠ "admin") := by
    rcases hrole with h | h
    · exact fun hc => hc.1 h
    · exact fun hc => hc.2 h
  have hinvalid : ¬(s = "open" ∨ s = "in_progress" ∨ s = "resolved" ∨ s = "closed") := by
    rintro (h | h | h | h)
    · exact hs.1 h
    · exact hs.2.1 h
    · exact hs.2.2.1 h
    · exact hs.2.2.2 h
  simp only [update_ticket_status, if_neg hna, if_neg hinvalid]

/-- C4 witness: the amended theorem applied to an agent submitting the
status value "banana". -/
theorem update_ticket_status_invalid_witness :
    (agentBob.role = "agent" ∨ agentBob.role = "admin")
    ∧ ("banana" ≠ "open" ∧ "banana" ≠ "in_progress"
        ∧ "banana" ≠ "resolved" ∧ "banana" ≠ "closed")
    ∧ update_ticket_status agentBob baseTicket (some "banana") 7
        = { ticket := baseTicket, new_notifications := [], flashes := [] } :=
  ⟨by decide, by decide,
    update_ticket_status_invalid agentBob baseTicket "banana" 7 (by decide) (by decide)⟩

/-- C10: a vote request whose direction is neither "upvote" nor
"downvote" succeeds without any error path, leaves the ticket — both
counters, status, timestamp — unchanged, and the JSON response reports
the ticket's current upvote and downvote counts. -/
theorem vote_ticket_invalid (t : Ticket) (vt : Option String) (now : Nat)
    (h1 : vt ≠ some "upvote") (h2 : vt ≠ some "downvote") :
    vote_ticket t vt now = { ticket := t, upvotes := t.upvotes, downvotes := t.downvotes } := by
  simp only [vote_ticket, if_neg h1, if_neg h2]

/-- C10 witness: the theorem applied to the direction "sideways" on a
ticket with counters 3 and 1. -/
theorem vote_ticket_invalid_witness :
    (some "sideways" ≠ some "upvote") ∧ (some "sideways" ≠ some "downvote")
    ∧ vote_ticket { baseTicket with upvotes := 3, downvotes := 1 } (some "sideways") 9
        = { ticket := { baseTicket with upvotes := 3, downvotes := 1 },
            upvotes := 3, downvotes := 1 } :=
  ⟨by decide, by decide,
    vote_ticket_invalid { baseTicket with upvotes := 3, downvotes := 1 }
      (some "sideways") 9 (by decide) (by decide)⟩

/-- Unfolding step of `applyVotes`: the head request is processed
first. -/
theorem applyVotes_cons (t : Ticket) (v : Option String) (vs : List (Option String)) (now : Nat) :
    applyVotes t (v :: vs) now = applyVotes ((vote_ticket t v now).ticket) vs now := rfl

/-- C8: over any sequence of sequential vote requests, each
"upvote"/"downvote" increments exactly its own counter by exactly one:
the final counters equal the initial values plus the number of requests
issued in each direction, with no cap and no per-actor dedup (the
handler never consults the actor). -/
theorem vote_counts (t : Ticket) (votes : List (Option String)) (now : Nat) :
    (applyVotes t votes now).upvotes = t.upvotes + votes.count (some "upvote")
    ∧ (applyVotes t votes now).downvotes = t.downvotes + votes.count (some "downvote") := by
  induction votes generalizing t with
  | nil => simp [applyVotes]
  | cons v vs ih =>
    rw [applyVotes_cons]
    rcases ih ((vote_ticket t v now).ticket) with ⟨hu, hd⟩
    rw [hu, hd]
    by_cases h1 : v = some "upvote"
    · subst h1
      constructor
      · simp [vote_ticket, List.count_cons]
        omega
      · simp [vote_ticket, List.count_cons]
    · by_cases h2 : v = some "downvote"
      · subst h2
        constructor
        · simp [vote_ticket, List.count_cons]
        · simp [vote_ticket, List.count_cons]
          omega
      · simp only [vote_ticket, if_neg h1, if_neg h2]
        constructor
        · simp [List.count_cons, h1]
        · simp [List.count_cons, h2]

/-- C5: for every CommentAdded event the set of notified recipients
never includes the comment's author: the creator branch, the
assigned-agent branch, and the admins-on-high/urgent branch each
exclude the commenting user. -/
theorem comment_added_never_notifies_author (users : List User) (t : Ticket) (c : Comment) :
    ((notify_comment_added users t c).all (fun n => !(n.user_id == c.user_id))) = true := by
  rw [List.all_eq_true]
  intro n hn
  unfold notify_comment_added at hn
  simp only [List.mem_append] at hn
  rcases hn with (h | h) | h
  · by_cases hc : c.user_id ≠ t.user_id
    · rw [if_pos hc] at h
      simp only [List.mem_singleton] at h
      subst h
      simp only [create_notification]
      simp [Ne.symm hc]
    · rw [if_neg hc] at h
      simp at h
  · rcases hassign : t.assigned_to with _ | a <;> rw [hassign] at h
    · simp at h
    · by_cases hcond : a ≠ c.user_id ∧ a ≠ t.user_id
      · simp only [if_pos hcond, List.mem_singleton] at h
        subst h
        simp only [create_notification]
        simp [hcond.1]
      · simp only [if_neg hcond] at h
        simp at h
  · by_cases hp : t.priority = "high" ∨ t.priority = "urgent"
    · rw [if_pos hp] at h
      simp only [List.mem_map, List.mem_filter] at h
      obtain ⟨u, ⟨_, hune⟩, rfl⟩ := h
      simpa [create_notification] using hune
    · rw [if_neg hp] at h
      simp at h

/-- Per-row fact: after `mark_read_row`, any row of the user is read. -/
theorem mark_read_row_read (uid : Nat) (n : Notification) :
    (!((mark_read_row uid n).user_id == uid) || (mark_read_row uid n).is_read) = true := by
  unfold mark_read_row
  by_cases h1 : n.user_id == uid
  · by_cases h2 : n.is_read
    · simp [h1, h2]
    · simp [h1, h2]
  · simp [h1]

/-- Per-row fact: `mark_read_row` is idempotent. -/
theorem mark_read_row_idem (uid : Nat) (n : Notification) :
    mark_read_row uid (mark_read_row uid n) = mark_read_row uid n := by
  unfold mark_read_row
  by_cases h1 : n.user_id == uid
  · by_cases h2 : n.is_read
    · simp [h1, h2]
    · simp [h1, h2]
  · simp [h1]

/-- Per-row fact: after `mark_read_row`, the row no longer matches the
unread filter of the user. -/
theorem mark_read_row_not_unread (uid : Nat) (n : Notification) :
    ((mark_read_row uid n).user_id == uid && (mark_read_row uid n).is_read == false) = false := by
  unfold mark_read_row
  by_cases h1 : n.user_id == uid
  · by_cases h2 : n.is_read
    · simp [h1, h2]
    · simp [h1, h2]
  · simp [h1]

/-- C9: markAllRead is idempotent: after one call every notification of
the user is read, and an immediate second call changes no row and
reports 0 rows affected. -/
theorem mark_all_notifications_read_idempotent (notifs : List Notification) (uid : Nat) :
    ((mark_all_notifications_read notifs uid).1.all
        (fun n => !(n.user_id == uid) || n.is_read)) = true
    ∧ mark_all_notifications_read (mark_all_notifications_read notifs uid).1 uid
        = ((mark_all_notifications_read notifs uid).1, 0) := by
  constructor
  · unfold mark_all_notifications_read
    simp only [List.all_map]
    rw [List.all_eq_true]
    intro n _
    exact mark_read_row_read uid n
  · unfold mark_all_notifications_read
    simp only [Prod.mk.injEq]
    constructor
    · rw [List.map_map]
      exact List.map_congr_left (fun a _ => mark_read_row_idem uid a)
    · rw [List.length_eq_zero, List.filter_eq_nil_iff]
      intro a ha
      obtain ⟨b, _, rfl⟩ := List.mem_map.mp ha
      exact fun hc => Bool.false_ne_true ((mark_read_row_not_unread uid b).symm.trans hc)

/-- C1 counterexample rows: a single user who is an admin, and a ticket
created by that admin. -/
def adminAlice : User := { id := 1, username := "alice", role := "admin" }

/-- Ticket created by the admin `adminAlice`. -/
def ticketByAlice : Ticket :=
  { id := 3, subject := "t", description := "d", status := "open", priority := "medium",
    updated_at := 0, user_id := 1, category_id := 1, assigned_to := none,
    upvotes := 0, downvotes := 0 }

/-- C1 counterexample: when the ticket's creator is an admin, the
TicketCreated fan-out notifies the creator: the recipient list is
exactly the creator's id, refuting "it never includes the ticket's
creator". -/
theorem ticket_created_notifies_creator :
    ((notify_ticket_created [adminAlice] ticketByAlice).map Notification.user_id) = [1]
    ∧ ticketByAlice.user_id = 1 := by
  decide

/-- C1 (amended): for every TicketCreated event the notified recipients
are exactly all admins followed by all agents — regardless of the
creator's role, so the creator is among them exactly when their role is
"admin" or "agent" — each recipient exactly once given distinct user
ids, and every notification has type "ticket_created". -/
theorem ticket_created_recipients (users : List User) (t : Ticket)
    (h : (users.map User.id).Nodup) :
    ((notify_ticket_created users t).map Notification.user_id
        = (users.filter (fun u => u.role == "admin")).map User.id
          ++ (users.filter (fun u => u.role == "agent")).map User.id)
    ∧ ((notify_ticket_created users t).map Notification.user_id).Nodup
    ∧ ((notify_ticket_created users t).all (fun n => n.type == "ticket_created")) = true := by
  have hmap : (notify_ticket_created users t).map Notification.user_id
      = (users.filter (fun u => u.role == "admin")).map User.id
        ++ (users.filter (fun u => u.role == "agent")).map User.id := by
    simp [notify_ticket_created, create_notification, List.map_map, Function.comp_def]
  refine ⟨hmap, ?_, ?_⟩
  · rw [hmap]
    have hadm : ((users.filter (fun u => u.role == "admin")).map User.id).Nodup :=
      List.Nodup.sublist ((List.filter_sublist users).map User.id) h
    have hagt : ((users.filter (fun u => u.role == "agent")).map User.id).Nodup :=
      List.Nodup.sublist ((List.filter_sublist users).map User.id) h
    refine hadm.append hagt ?_
    intro x hx1 hx2
    simp only [List.mem_map, List.mem_filter, beq_iff_eq] at hx1 hx2
    obtain ⟨u, ⟨hu, hur⟩, rfl⟩ := hx1
    obtain ⟨v, ⟨hv, hvr⟩, hvid⟩ := hx2
    have hvu : v = u := List.inj_on_of_nodup_map h hv hu hvid
    rw [hvu] at hvr
    rw [hur] at hvr
    exact absurd hvr (by decide)
  · rw [List.all_eq_true]
    intro n hn
    simp only [notify_ticket_created, List.mem_append, List.mem_map] at hn
    rcases hn with ⟨u, _, rfl⟩ | ⟨u, _, rfl⟩ <;> simp [create_notification]

/-- Users serving the C1 witness: one admin, one agent, one plain user,
with distinct ids. -/
def usersAAU : List User :=
  [{ id := 1, username := "alice", role := "admin" },
   { id := 2, username := "bob", role := "agent" },
   { id := 5, username := "carol", role := "user" }]

/-- C1 witness: the amended theorem applied to a store of one admin,
one agent and one plain user (the ticket's creator). -/
theorem ticket_created_recipients_witness :
    ((usersAAU.map User.id).Nodup)
    ∧ (((notify_ticket_created usersAAU baseTicket).map Notification.user_id
          = (usersAAU.filter (fun u => u.role == "admin")).map User.id
            ++ (usersAAU.filter (fun u => u.role == "agent")).map User.id)
        ∧ ((notify_ticket_created usersAAU baseTicket).map Notification.user_id).Nodup
        ∧ ((notify_ticket_created usersAAU baseTicket).all
            (fun n => n.type == "ticket_created")) = true) :=
  ⟨by decide, ticket_created_recipients usersAAU baseTicket (by decide)⟩

/-- C2 counterexample rows: the only user is an admin, who created the
high-priority ticket. -/
def usersOneAdmin : List User := [{ id := 1, username := "alice", role := "admin" }]

/-- High-priority ticket created by user 1 (the admin), unassigned. -/
def highTicketByAdmin : Ticket :=
  { id := 4, subject := "t", description := "d", status := "open", priority := "high",
    updated_at := 0, user_id := 1, category_id := 1, assigned_to := none,
    upvotes := 0, downvotes := 0 }

/-- Comment on that ticket by a different user (id 2). -/
def outsideComment : Comment := { id := 9, content := "hi", user_id := 2, ticket_id := 4 }

/-- C2 counterexample: on a high-priority ticket whose creator is an
admin, a comment by another user produces TWO notifications to that
admin for the single event — one from the ticket-creator rule and one
from the admins rule — so no dedup by recipient id exists across the
three comment-notification rules. -/
theorem comment_added_double_notification :
    ((notify_comment_added usersOneAdmin highTicketByAdmin outsideComment).map
        Notification.user_id) = [1, 1]
    ∧ ((notify_comment_added usersOneAdmin highTicketByAdmin outsideComment).map
        Notification.user_id).count 1 = 2 := by
  decide

/-- C2 (amended): within one CommentAdded event the ticket-creator and
assigned-agent rules never overlap, but the admins rule is not
deduplicated against them.  Provided user ids are distinct, every
recipient receives at most one notification whenever the ticket's
priority is not "high"/"urgent", or no admin among the users is the
ticket's creator or its assigned agent; an admin who is the creator or
the assignee of a high/urgent ticket can be notified twice (see the
counterexample). -/
theorem comment_added_dedup (users : List User) (t : Ticket) (c : Comment)
    (hids : (users.map User.id).Nodup)
    (hsafe : (t.priority ≠ "high" ∧ t.priority ≠ "urgent")
             ∨ ∀ u ∈ users, u.role = "admin" → u.id ≠ t.user_id ∧ some u.id ≠ t.assigned_to) :
    ((notify_comment_added users t c).map Notification.user_id).Nodup := by
  have hFilterNodup : ∀ p : User → Bool, ((users.filter p).map User.id).Nodup :=
    fun p => List.Nodup.sublist ((List.filter_sublist users).map User.id) hids
  cases hassign : t.assigned_to with
  | none =>
    have h2 : (t.priority = "high" ∨ t.priority = "urgent") →
        ∀ u ∈ users, u.role = "admin" → u.id ≠ t.user_id := by
      intro hp u hu hur
      rcases hsafe with ⟨hn1, hn2⟩ | hs
      · rcases hp with h | h
        · exact absurd h hn1
        · exact absurd h hn2
      · exact (hs u hu hur).1
    by_cases hc : c.user_id ≠ t.user_id <;>
      by_cases hp : t.priority = "high" ∨ t.priority = "urgent" <;>
        simp [notify_comment_added, hassign, hc, hp, create_notification]
    · exact ⟨fun x hx _ hur => h2 hp x hx hur, hFilterNodup _⟩
    · exact hFilterNodup _
  | some a =>
    have h2 : (t.priority = "high" ∨ t.priority = "urgent") →
        ∀ u ∈ users, u.role = "admin" → u.id ≠ t.user_id ∧ u.id ≠ a := by
      intro hp u hu hur
      rcases hsafe with ⟨hn1, hn2⟩ | hs
      · rcases hp with h | h
        · exact absurd h hn1
        · exact absurd h hn2
      · refine ⟨(hs u hu hur).1, fun hcontra => (hs u hu hur).2 ?_⟩
        rw [hassign, hcontra]
    by_cases hc : c.user_id ≠ t.user_id <;>
      by_cases hcond : a ≠ c.user_id ∧ a ≠ t.user_id <;>
        by_cases hp : t.priority = "high" ∨ t.priority = "urgent" <;>
          simp [notify_comment_added, hassign, hc, hcond, hp, create_notification]
    · exact ⟨⟨fun h => hcond.2 h.symm, fun x hx _ hur => (h2 hp x hx hur).1⟩,
        fun x hx _ hur => (h2 hp x hx hur).2, hFilterNodup _⟩
    · exact fun h => hcond.2 h.symm
    · exact ⟨fun x hx _ hur => (h2 hp x hx hur).1, hFilterNodup _⟩
    · exact ⟨fun x hx _ hur => (h2 hp x hx hur).2, hFilterNodup _⟩
    · exact hFilterNodup _

/-- C2 witness rows: one admin (id 3) who is neither the creator nor
the assignee of the high-priority ticket created by user 5. -/
def usersAdminDana : List User := [{ id := 3, username := "dana", role := "admin" }]

/-- High-priority ticket created by user 5, unassigned. -/
def highTicketByCarol : Ticket :=
  { id := 6, subject := "t", description := "d", status := "open", priority := "high",
    updated_at := 0, user_id := 5, category_id := 1, assigned_to := none,
    upvotes := 0, downvotes := 0 }

/-- Comment on that ticket by user 2. -/
def commentFromBob : Comment := { id := 10, content := "ok", user_id := 2, ticket_id := 6 }

/-- C2 witness: the amended dedup theorem applied to a high-priority
ticket whose only admin is neither creator nor assignee. -/
theorem comment_added_dedup_witness :
    ((usersAdminDana.map User.id).Nodup)
    ∧ ((highTicketByCarol.priority ≠ "high" ∧ highTicketByCarol.priority ≠ "urgent")
        ∨ ∀ u ∈ usersAdminDana, u.role = "admin" →
            u.id ≠ highTicketByCarol.user_id ∧ some u.id ≠ highTicketByCarol.assigned_to)
    ∧ ((notify_comment_added usersAdminDana highTicketByCarol commentFromBob).map
          Notification.user_id).Nodup :=
  ⟨by decide, by decide,
    comment_added_dedup usersAdminDana highTicketByCarol commentFromBob
      (by decide) (by decide)⟩

/-- C7 (amended): for every priority-sorted dashboard listing, the
result is page `page` — fixed page size 10 — of the list obtained by
stably sorting the filtered tickets by priority rank descending
(urgent > high > medium > low): that list is sorted by rank descending
and is a permutation of the filtered tickets.  No secondary sort key is
applied; ties are NOT ordered by updated timestamp (counterexample
separate). -/
theorem dashboard_priority_sorted (actor : User) (tickets : List Ticket)
    (status_filter category_filter search_query : String) (page : Nat) :
    dashboard_tickets actor tickets status_filter category_filter search_query "priority" page
      = (((dashboard_filter actor tickets status_filter category_filter
            search_query).mergeSort priority_le).drop ((page - 1) * 10)).take 10
    ∧ ((dashboard_filter actor tickets status_filter category_filter
          search_query).mergeSort priority_le).Pairwise
        (fun a b => priorityRank b.priority ≤ priorityRank a.priority)
    ∧ ((dashboard_filter actor tickets status_filter category_filter
          search_query).mergeSort priority_le).Perm
        (dashboard_filter actor tickets status_filter category_filter search_query) := by
  refine ⟨?_, ?_, ?_⟩
  · simp [dashboard_tickets]
  · have htrans : ∀ a b c : Ticket, priority_le a b → priority_le b c → priority_le a c := by
      intro a b c hab hbc
      exact decide_eq_true (Nat.le_trans (of_decide_eq_true hbc) (of_decide_eq_true hab))
    have htotal : ∀ a b : Ticket, priority_le a b || priority_le b a := by
      intro a b
      simp only [priority_le, Bool.or_eq_true, decide_eq_true_eq]
      omega
    exact (List.sorted_mergeSort htrans htotal
      (dashboard_filter actor tickets status_filter category_filter search_query)).imp
        (fun h => of_decide_eq_true h)
  · exact List.mergeSort_perm _ _

/-- Stale high-priority ticket stored first. -/
def staleHigh : Ticket :=
  { id := 1, subject := "a", description := "d", status := "open", priority := "high",
    updated_at := 1, user_id := 5, category_id := 1, assigned_to := none,
    upvotes := 0, downvotes := 0 }

/-- Fresh high-priority ticket stored second. -/
def freshHigh : Ticket :=
  { id := 2, subject := "b", description := "d", status := "open", priority := "high",
    updated_at := 5, user_id := 5, category_id := 1, assigned_to := none,
    upvotes := 0, downvotes := 0 }

/-- C7 counterexample: with sort = "priority", two equal-priority
tickets come back in stored order — the staler one first — although the
claim requires ties to be broken by updated timestamp descending. -/
theorem dashboard_priority_tie_not_recent :
    dashboard_tickets agentBob [staleHigh, freshHigh] "" "" "" "priority" 1
      = [staleHigh, freshHigh]
    ∧ staleHigh.priority = freshHigh.priority
    ∧ staleHigh.updated_at < freshHigh.updated_at := by
  refine ⟨?_, by decide, by decide⟩
  have h1 : dashboard_filter agentBob [staleHigh, freshHigh] "" "" ""
      = [staleHigh, freshHigh] := by decide
  have h2 : List.mergeSort [staleHigh, freshHigh] priority_le = [staleHigh, freshHigh] :=
    List.mergeSort_of_sorted (by decide)
  simp [dashboard_tickets, h1, h2]

end QuickDesk
